import Mathlib

/-!
# bridge-history-api: `BatchController.GetWithdrawRootByBatchIndex`

A shallow embedding of `internal/controller/batch_controller.go`.

The handler is stateful Go code: it reads a request out of a `*gin.Context`,
calls `batchLogic.GetWithdrawRootByBatchIndex` and answers through
`types.RenderJSON`.  It is embedded as a function on an explicit `World`:
the controller's fields, the log of `RenderJSON` calls (with their arguments)
and the log of calls made to the lookup.

The collaborators whose code is outside this file are inputs of the
embedding:

* `ShouldBind`: what `ctx.ShouldBind(&req)` leaves in `req` together with the
  `error` it returns (`none` is Go's `nil`);
* `lookup`: the pair `(result, err)` that
  `batchLogic.GetWithdrawRootByBatchIndex(ctx, index)` returns;
* `ResponseCodes`: the three constants of package `types`.
-/

namespace Controller

/-- The three constants of package `types` that the handler passes to
`RenderJSON`.  Their declarations are outside `batch_controller.go`, so their
values are a parameter of the embedding. -/
structure ResponseCodes where
  Success : Int
  ErrParameterInvalidNo : Int
  ErrGetWithdrawRootByBatchIndexFailure : Int
deriving DecidableEq, Repr

/-- The request type `types.QueryByBatchIndexRequest`.  The handler reads only
its `BatchIndex` field; `rest` stands for whatever else the declaration holds. -/
structure QueryByBatchIndexRequest (ι χ : Type) where
  BatchIndex : ι
  rest : χ
deriving DecidableEq, Repr

/-- The Go struct `BatchController`: one field, the pointer `batchLogic`. -/
structure BatchController (L : Type) where
  batchLogic : L
deriving DecidableEq, Repr

/-- The arguments of one call `types.RenderJSON(ctx, errCode, err, data)`.
`none` is Go's `nil`, for the `error` as for the `interface{}` payload. -/
structure Rendered (ε ρ : Type) where
  errCode : Int
  err : Option ε
  data : Option ρ
deriving DecidableEq, Repr

/-- One call `recv.GetWithdrawRootByBatchIndex(ctx, batchIndex)`. -/
structure LookupCall (L C ι : Type) where
  receiver : L
  ctx : C
  batchIndex : ι
deriving DecidableEq, Repr

/-- What the handler can touch: the controller it is a method of, the
responses rendered so far and the lookups made so far. -/
structure World (L C ι ε ρ : Type) where
  controller : BatchController L
  rendered : List (Rendered ε ρ)
  lookups : List (LookupCall L C ι)
deriving DecidableEq, Repr

variable {L C ι χ ε ρ : Type}

/-- The effect of `types.RenderJSON(ctx, errCode, err, data)`: the call is
recorded with its arguments. -/
def RenderJSON (errCode : Int) (err : Option ε) (data : Option ρ)
    (w : World L C ι ε ρ) : World L C ι ε ρ :=
  World.mk w.controller (w.rendered ++ [Rendered.mk errCode err data]) w.lookups

/-- The call `b.batchLogic.GetWithdrawRootByBatchIndex(ctx, index)`: it is
recorded, and it returns the pair `(result, err)` that `lookup` gives. -/
def callBatchLogic (lookup : L → C → ι → ρ × Option ε) (ctx : C) (index : ι)
    (w : World L C ι ε ρ) : (ρ × Option ε) × World L C ι ε ρ :=
  (lookup w.controller.batchLogic ctx index,
   World.mk w.controller w.rendered
     (w.lookups ++ [LookupCall.mk w.controller.batchLogic ctx index]))

/-- The method `(b *BatchController) GetWithdrawRootByBatchIndex(ctx)`.

```go
var req types.QueryByBatchIndexRequest
if err := ctx.ShouldBind(&req); err != nil {
    types.RenderJSON(ctx, types.ErrParameterInvalidNo, err, nil)
    return
}
result, err := b.batchLogic.GetWithdrawRootByBatchIndex(ctx, req.BatchIndex)
if err != nil {
    types.RenderJSON(ctx, types.ErrGetWithdrawRootByBatchIndexFailure, err, nil)
    return
}
types.RenderJSON(ctx, types.Success, nil, result)
```
-/
def GetWithdrawRootByBatchIndex (codes : ResponseCodes)
    (ShouldBind : C → QueryByBatchIndexRequest ι χ × Option ε)
    (lookup : L → C → ι → ρ × Option ε)
    (ctx : C) (w : World L C ι ε ρ) : World L C ι ε ρ :=
  match ShouldBind ctx with
  | (_, some err) => RenderJSON codes.ErrParameterInvalidNo (some err) none w
  | (req, none) =>
    match callBatchLogic lookup ctx req.BatchIndex w with
    | ((_, some err), w1) =>
      RenderJSON codes.ErrGetWithdrawRootByBatchIndexFailure (some err) none w1
    | ((result, none), w1) => RenderJSON codes.Success none (some result) w1

/-- The responses rendered between the state `w` and the later state `w1`. -/
def emitted (w w1 : World L C ι ε ρ) : List (Rendered ε ρ) :=
  w1.rendered.drop w.rendered.length

/-- The lookups made between the state `w` and the later state `w1`. -/
def invoked (w w1 : World L C ι ε ρ) : List (LookupCall L C ι) :=
  w1.lookups.drop w.lookups.length

/-- Modelled from the spec: how `logic.BatchLogic.GetWithdrawRootByBatchIndex`,
whose code is outside `batch_controller.go`, reports that no record exists.
The spec has NotFound "surfaced to the caller as a normal negative result, not
a system error" and "never an error": the returned error is nil and the
returned result is the not-found signal, whichever value `isNotFound` says
that is. -/
def reportsNotFound (isNotFound : ρ → Bool) (outcome : ρ × Option ε) : Bool :=
  outcome.2.isNone && isNotFound outcome.1

/-- Modelled from the spec: how `logic.BatchLogic.GetWithdrawRootByBatchIndex`,
whose code is outside `batch_controller.go`, reports a store or query failure.
The spec has StoreUnavailable "propagate as an error": the returned error is
not nil. -/
def reportsStoreUnavailable (outcome : ρ × Option ε) : Bool :=
  outcome.2.isSome

/-! ## Sample data -/

/-- Sample values for the response codes, pairwise distinct. -/
def sampleCodes : ResponseCodes := ResponseCodes.mk 0 40001 40005

/-- A binding that succeeds: the request carries the context's number as its
batch index. -/
def bindIndex (ctx : Nat) : QueryByBatchIndexRequest Nat Unit × Option String :=
  (QueryByBatchIndexRequest.mk ctx (), none)

/-- A binding that fails. -/
def bindInvalid (_ctx : Nat) : QueryByBatchIndexRequest Nat Unit × Option String :=
  (QueryByBatchIndexRequest.mk 0 (), some "invalid batch_index")

/-- A store in which batch 100 has withdraw root `0xabc` and no other batch has
a record; a missing record is reported as `(0, nil)`. -/
def storeWithBatch100 (_recv : Nat) (_ctx : Nat) (index : Nat) : Nat × Option String :=
  if index = 100 then (0xabc, none) else (0, none)

/-- A store that cannot be reached. -/
def storeDown (_recv : Nat) (_ctx : Nat) (_index : Nat) : Nat × Option String :=
  (0, some "connection refused")

/-- A store without a record for any batch. -/
def storeEmpty (_recv : Nat) (_ctx : Nat) (_index : Nat) : Nat × Option String :=
  (0, none)

/-- A fresh state: a controller over the handle `1`, nothing rendered, no
lookup made. -/
def freshWorld : World Nat Nat Nat String Nat :=
  World.mk (BatchController.mk 1) [] []

/-! ## The three paths -/

/-- The bind-failure path, in full. -/
lemma run_bind_failure (codes : ResponseCodes)
    (ShouldBind : C → QueryByBatchIndexRequest ι χ × Option ε)
    (lookup : L → C → ι → ρ × Option ε) (ctx : C) (w : World L C ι ε ρ)
    (req : QueryByBatchIndexRequest ι χ) (e : ε)
    (hbind : ShouldBind ctx = (req, some e)) :
    GetWithdrawRootByBatchIndex codes ShouldBind lookup ctx w =
      World.mk w.controller
        (w.rendered ++ [Rendered.mk codes.ErrParameterInvalidNo (some e) none])
        w.lookups := by
  simp [GetWithdrawRootByBatchIndex, hbind, RenderJSON]

/-- The lookup-failure path, in full. -/
lemma run_lookup_failure (codes : ResponseCodes)
    (ShouldBind : C → QueryByBatchIndexRequest ι χ × Option ε)
    (lookup : L → C → ι → ρ × Option ε) (ctx : C) (w : World L C ι ε ρ)
    (req : QueryByBatchIndexRequest ι χ) (result : ρ) (e : ε)
    (hbind : ShouldBind ctx = (req, none))
    (hlook : lookup w.controller.batchLogic ctx req.BatchIndex = (result, some e)) :
    GetWithdrawRootByBatchIndex codes ShouldBind lookup ctx w =
      World.mk w.controller
        (w.rendered ++
          [Rendered.mk codes.ErrGetWithdrawRootByBatchIndexFailure (some e) none])
        (w.lookups ++ [LookupCall.mk w.controller.batchLogic ctx req.BatchIndex]) := by
  simp [GetWithdrawRootByBatchIndex, hbind, callBatchLogic, hlook, RenderJSON]

/-- The success path, in full. -/
lemma run_success (codes : ResponseCodes)
    (ShouldBind : C → QueryByBatchIndexRequest ι χ × Option ε)
    (lookup : L → C → ι → ρ × Option ε) (ctx : C) (w : World L C ι ε ρ)
    (req : QueryByBatchIndexRequest ι χ) (result : ρ)
    (hbind : ShouldBind ctx = (req, none))
    (hlook : lookup w.controller.batchLogic ctx req.BatchIndex = (result, none)) :
    GetWithdrawRootByBatchIndex codes ShouldBind lookup ctx w =
      World.mk w.controller
        (w.rendered ++ [Rendered.mk codes.Success none (some result)])
        (w.lookups ++ [LookupCall.mk w.controller.batchLogic ctx req.BatchIndex]) := by
  simp [GetWithdrawRootByBatchIndex, hbind, callBatchLogic, hlook, RenderJSON]

/-- What was rendered on top of `w.rendered`. -/
lemma emitted_mk (w : World L C ι ε ρ) (c : BatchController L)
    (xs : List (Rendered ε ρ)) (ls : List (LookupCall L C ι)) :
    emitted w (World.mk c (w.rendered ++ xs) ls) = xs := by
  simp [emitted]

/-- What was looked up on top of `w.lookups`. -/
lemma invoked_mk (w : World L C ι ε ρ) (c : BatchController L)
    (rs : List (Rendered ε ρ)) (xs : List (LookupCall L C ι)) :
    invoked w (World.mk c rs (w.lookups ++ xs)) = xs := by
  simp [invoked]

/-- C1: when the request binds and the lookup returns `(result, nil)`, the
handler renders exactly one response: the `Success` code, a nil error and the
payload `result`, unmodified. -/
theorem success_renders_result (codes : ResponseCodes)
    (ShouldBind : C → QueryByBatchIndexRequest ι χ × Option ε)
    (lookup : L → C → ι → ρ × Option ε) (ctx : C) (w : World L C ι ε ρ)
    (req : QueryByBatchIndexRequest ι χ) (result : ρ)
    (hbind : ShouldBind ctx = (req, none))
    (hlook : lookup w.controller.batchLogic ctx req.BatchIndex = (result, none)) :
    emitted w (GetWithdrawRootByBatchIndex codes ShouldBind lookup ctx w) =
      [Rendered.mk codes.Success none (some result)] := by
  rw [run_success codes ShouldBind lookup ctx w req result hbind hlook]
  exact emitted_mk _ _ _ _

/-- C1 at the scenario "batch 100 has withdraw root 0xabc": the rendered
payload is `0xabc`. -/
theorem success_renders_result_witness :
    bindIndex 100 = (QueryByBatchIndexRequest.mk 100 (), none) ∧
    storeWithBatch100 1 100 100 = (0xabc, none) ∧
    emitted freshWorld
        (GetWithdrawRootByBatchIndex sampleCodes bindIndex storeWithBatch100 100 freshWorld) =
      [Rendered.mk 0 none (some 0xabc)] :=
  ⟨rfl, rfl,
   success_renders_result sampleCodes bindIndex storeWithBatch100 100 freshWorld
     (QueryByBatchIndexRequest.mk 100 ()) 0xabc rfl rfl⟩

/-- C2: when the request binds and the lookup returns a non-nil error `e`, the
handler renders exactly one response: the `ErrGetWithdrawRootByBatchIndexFailure`
code, the same error `e` and a nil payload; no response it renders has the
`Success` code or a payload.  The two codes are constants declared outside this
file; they are taken to differ. -/
theorem lookup_error_propagates (codes : ResponseCodes)
    (ShouldBind : C → QueryByBatchIndexRequest ι χ × Option ε)
    (lookup : L → C → ι → ρ × Option ε) (ctx : C) (w : World L C ι ε ρ)
    (req : QueryByBatchIndexRequest ι χ) (result : ρ) (e : ε)
    (hcodes : codes.ErrGetWithdrawRootByBatchIndexFailure ≠ codes.Success)
    (hbind : ShouldBind ctx = (req, none))
    (hlook : lookup w.controller.batchLogic ctx req.BatchIndex = (result, some e)) :
    emitted w (GetWithdrawRootByBatchIndex codes ShouldBind lookup ctx w) =
      [Rendered.mk codes.ErrGetWithdrawRootByBatchIndexFailure (some e) none] ∧
    ∀ r ∈ emitted w (GetWithdrawRootByBatchIndex codes ShouldBind lookup ctx w),
      r.errCode ≠ codes.Success ∧ r.data = none := by
  rw [run_lookup_failure codes ShouldBind lookup ctx w req result e hbind hlook,
    emitted_mk]
  refine ⟨rfl, ?_⟩
  intro r hr
  rw [List.mem_singleton] at hr
  subst hr
  exact ⟨hcodes, rfl⟩

/-- C2 at the scenario "store connection is down" for batch 100. -/
theorem lookup_error_propagates_witness :
    sampleCodes.ErrGetWithdrawRootByBatchIndexFailure ≠ sampleCodes.Success ∧
    bindIndex 100 = (QueryByBatchIndexRequest.mk 100 (), none) ∧
    storeDown 1 100 100 = (0, some "connection refused") ∧
    (emitted freshWorld
        (GetWithdrawRootByBatchIndex sampleCodes bindIndex storeDown 100 freshWorld) =
      [Rendered.mk 40005 (some "connection refused") none] ∧
     ∀ r ∈ emitted freshWorld
        (GetWithdrawRootByBatchIndex sampleCodes bindIndex storeDown 100 freshWorld),
      r.errCode ≠ sampleCodes.Success ∧ r.data = none) :=
  ⟨by decide, rfl, rfl,
   lookup_error_propagates sampleCodes bindIndex storeDown 100 freshWorld
     (QueryByBatchIndexRequest.mk 100 ()) 0 "connection refused" (by decide) rfl rfl⟩

/-- C3: for every request that binds, the handler renders exactly one response
when the lookup reports that no record exists and exactly one when the lookup
reports a store or query failure, and the two `(code, error, payload)` triples
differ: the first carries the `Success` code, a nil error and the lookup's
result, the second the `ErrGetWithdrawRootByBatchIndexFailure` code, a non-nil
error and a nil payload. -/
theorem not_found_differs_from_store_failure (codes : ResponseCodes)
    (ShouldBind : C → QueryByBatchIndexRequest ι χ × Option ε)
    (lookupMissing lookupFailing : L → C → ι → ρ × Option ε)
    (isNotFound : ρ → Bool) (ctx : C) (w : World L C ι ε ρ)
    (req : QueryByBatchIndexRequest ι χ)
    (hbind : ShouldBind ctx = (req, none))
    (hmissing : reportsNotFound isNotFound
      (lookupMissing w.controller.batchLogic ctx req.BatchIndex) = true)
    (hfailing : reportsStoreUnavailable
      (lookupFailing w.controller.batchLogic ctx req.BatchIndex) = true) :
    ∃ r1 r2 : Rendered ε ρ,
      emitted w (GetWithdrawRootByBatchIndex codes ShouldBind lookupMissing ctx w) = [r1] ∧
      emitted w (GetWithdrawRootByBatchIndex codes ShouldBind lookupFailing ctx w) = [r2] ∧
      r1 ≠ r2 ∧
      r1 = Rendered.mk codes.Success none
        (some (lookupMissing w.controller.batchLogic ctx req.BatchIndex).1) ∧
      r2 = Rendered.mk codes.ErrGetWithdrawRootByBatchIndexFailure
        (lookupFailing w.controller.batchLogic ctx req.BatchIndex).2 none ∧
      r1.err = none ∧ r2.err ≠ none := by
  rcases hm : lookupMissing w.controller.batchLogic ctx req.BatchIndex with ⟨x1, _ | e1⟩
  · rcases hf : lookupFailing w.controller.batchLogic ctx req.BatchIndex with ⟨x2, _ | e2⟩
    · rw [hf] at hfailing
      simp [reportsStoreUnavailable] at hfailing
    · refine ⟨Rendered.mk codes.Success none (some x1),
        Rendered.mk codes.ErrGetWithdrawRootByBatchIndexFailure (some e2) none,
        ?_, ?_, ?_, rfl, rfl, rfl, ?_⟩
      · rw [run_success codes ShouldBind lookupMissing ctx w req x1 hbind hm, emitted_mk]
      · rw [run_lookup_failure codes ShouldBind lookupFailing ctx w req x2 e2 hbind hf,
          emitted_mk]
      · intro h
        have herr := congrArg Rendered.err h
        simp at herr
      · simp
  · rw [hm] at hmissing
    simp [reportsNotFound] at hmissing

/-- C3 at the scenarios "batch 101 has never been indexed" and "store
connection is down". -/
theorem not_found_differs_from_store_failure_witness :
    bindIndex 101 = (QueryByBatchIndexRequest.mk 101 (), none) ∧
    reportsNotFound (fun root => decide (root = 0)) (storeEmpty 1 101 101) = true ∧
    reportsStoreUnavailable (storeDown 1 101 101) = true ∧
    ∃ r1 r2 : Rendered String Nat,
      emitted freshWorld
        (GetWithdrawRootByBatchIndex sampleCodes bindIndex storeEmpty 101 freshWorld) = [r1] ∧
      emitted freshWorld
        (GetWithdrawRootByBatchIndex sampleCodes bindIndex storeDown 101 freshWorld) = [r2] ∧
      r1 ≠ r2 ∧
      r1 = Rendered.mk sampleCodes.Success none
        (some (storeEmpty freshWorld.controller.batchLogic 101
          (QueryByBatchIndexRequest.mk 101 ()).BatchIndex).1) ∧
      r2 = Rendered.mk sampleCodes.ErrGetWithdrawRootByBatchIndexFailure
        (storeDown freshWorld.controller.batchLogic 101
          (QueryByBatchIndexRequest.mk 101 ()).BatchIndex).2 none ∧
      r1.err = none ∧ r2.err ≠ none :=
  ⟨rfl, rfl, rfl,
   not_found_differs_from_store_failure sampleCodes bindIndex storeEmpty storeDown
     (fun root => decide (root = 0)) 101 freshWorld
     (QueryByBatchIndexRequest.mk 101 ()) rfl rfl rfl⟩

/-- C4: when binding the request fails with error `e`, the handler renders
exactly one response: the `ErrParameterInvalidNo` code, the same error `e` and
a nil payload; the lookup is not invoked. -/
theorem bind_error_rejected (codes : ResponseCodes)
    (ShouldBind : C → QueryByBatchIndexRequest ι χ × Option ε)
    (lookup : L → C → ι → ρ × Option ε) (ctx : C) (w : World L C ι ε ρ)
    (req : QueryByBatchIndexRequest ι χ) (e : ε)
    (hbind : ShouldBind ctx = (req, some e)) :
    emitted w (GetWithdrawRootByBatchIndex codes ShouldBind lookup ctx w) =
      [Rendered.mk codes.ErrParameterInvalidNo (some e) none] ∧
    (GetWithdrawRootByBatchIndex codes ShouldBind lookup ctx w).lookups = w.lookups ∧
    invoked w (GetWithdrawRootByBatchIndex codes ShouldBind lookup ctx w) = [] := by
  rw [run_bind_failure codes ShouldBind lookup ctx w req e hbind, emitted_mk]
  refine ⟨rfl, rfl, ?_⟩
  simp [invoked]

/-- C4 at a request whose batch index does not bind. -/
theorem bind_error_rejected_witness :
    bindInvalid 7 = (QueryByBatchIndexRequest.mk 0 (), some "invalid batch_index") ∧
    (emitted freshWorld
        (GetWithdrawRootByBatchIndex sampleCodes bindInvalid storeWithBatch100 7 freshWorld) =
      [Rendered.mk 40001 (some "invalid batch_index") none] ∧
     (GetWithdrawRootByBatchIndex sampleCodes bindInvalid storeWithBatch100 7
        freshWorld).lookups = freshWorld.lookups ∧
     invoked freshWorld
        (GetWithdrawRootByBatchIndex sampleCodes bindInvalid storeWithBatch100 7 freshWorld) =
      []) :=
  ⟨rfl,
   bind_error_rejected sampleCodes bindInvalid storeWithBatch100 7 freshWorld
     (QueryByBatchIndexRequest.mk 0 ()) "invalid batch_index" rfl⟩

/-- C5: two invocations, whatever their controllers, contexts, earlier
responses and stores, in which the request binds and the lookup returns the
same `(result, err)` pair render the same responses.  Nothing else is asked of
the two bound requests, so requests for the same batch index are covered. -/
theorem same_outcome_same_response (codes : ResponseCodes)
    (ShouldBind1 ShouldBind2 : C → QueryByBatchIndexRequest ι χ × Option ε)
    (lookup1 lookup2 : L → C → ι → ρ × Option ε) (ctx1 ctx2 : C)
    (w1 w2 : World L C ι ε ρ) (req1 req2 : QueryByBatchIndexRequest ι χ)
    (outcome : ρ × Option ε)
    (hbind1 : ShouldBind1 ctx1 = (req1, none))
    (hbind2 : ShouldBind2 ctx2 = (req2, none))
    (hlook1 : lookup1 w1.controller.batchLogic ctx1 req1.BatchIndex = outcome)
    (hlook2 : lookup2 w2.controller.batchLogic ctx2 req2.BatchIndex = outcome) :
    emitted w1 (GetWithdrawRootByBatchIndex codes ShouldBind1 lookup1 ctx1 w1) =
      emitted w2 (GetWithdrawRootByBatchIndex codes ShouldBind2 lookup2 ctx2 w2) := by
  rcases outcome with ⟨result, _ | e⟩
  · rw [run_success codes ShouldBind1 lookup1 ctx1 w1 req1 result hbind1 hlook1,
      run_success codes ShouldBind2 lookup2 ctx2 w2 req2 result hbind2 hlook2,
      emitted_mk, emitted_mk]
  · rw [run_lookup_failure codes ShouldBind1 lookup1 ctx1 w1 req1 result e hbind1 hlook1,
      run_lookup_failure codes ShouldBind2 lookup2 ctx2 w2 req2 result e hbind2 hlook2,
      emitted_mk, emitted_mk]

/-- C5 at batch 100, asked of a fresh controller and of another controller
that has already answered a request. -/
theorem same_outcome_same_response_witness :
    bindIndex 100 = (QueryByBatchIndexRequest.mk 100 (), none) ∧
    bindIndex 100 = (QueryByBatchIndexRequest.mk 100 (), none) ∧
    storeWithBatch100 1 100 100 = (0xabc, none) ∧
    storeWithBatch100 2 100 100 = (0xabc, none) ∧
    emitted freshWorld
        (GetWithdrawRootByBatchIndex sampleCodes bindIndex storeWithBatch100 100 freshWorld) =
      emitted (World.mk (BatchController.mk 2) [Rendered.mk 0 none (some 5)] [])
        (GetWithdrawRootByBatchIndex sampleCodes bindIndex storeWithBatch100 100
          (World.mk (BatchController.mk 2) [Rendered.mk 0 none (some 5)] [])) :=
  ⟨rfl, rfl, rfl, rfl,
   same_outcome_same_response sampleCodes bindIndex bindIndex storeWithBatch100
     storeWithBatch100 100 100 freshWorld
     (World.mk (BatchController.mk 2) [Rendered.mk 0 none (some 5)] [])
     (QueryByBatchIndexRequest.mk 100 ()) (QueryByBatchIndexRequest.mk 100 ())
     (0xabc, none) rfl rfl rfl rfl⟩

/-- C6: on every path the handler leaves the controller, and with it the
`batchLogic` field, as it was; the state after the call is the state before it
with one response added to those rendered and with the lookups it made (reads
of the store) added to the lookup log. -/
theorem controller_unchanged (codes : ResponseCodes)
    (ShouldBind : C → QueryByBatchIndexRequest ι χ × Option ε)
    (lookup : L → C → ι → ρ × Option ε) (ctx : C) (w : World L C ι ε ρ) :
    (GetWithdrawRootByBatchIndex codes ShouldBind lookup ctx w).controller = w.controller ∧
    (GetWithdrawRootByBatchIndex codes ShouldBind lookup ctx w).controller.batchLogic =
      w.controller.batchLogic ∧
    ∃ (r : Rendered ε ρ) (calls : List (LookupCall L C ι)),
      GetWithdrawRootByBatchIndex codes ShouldBind lookup ctx w =
        World.mk w.controller (w.rendered ++ [r]) (w.lookups ++ calls) := by
  rcases hb : ShouldBind ctx with ⟨req, _ | e⟩
  · rcases hl : lookup w.controller.batchLogic ctx req.BatchIndex with ⟨result, _ | e⟩
    · rw [run_success codes ShouldBind lookup ctx w req result hb hl]
      exact ⟨rfl, rfl, _, _, rfl⟩
    · rw [run_lookup_failure codes ShouldBind lookup ctx w req result e hb hl]
      exact ⟨rfl, rfl, _, _, rfl⟩
  · rw [run_bind_failure codes ShouldBind lookup ctx w req e hb]
    exact ⟨rfl, rfl, Rendered.mk codes.ErrParameterInvalidNo (some e) none, [], by simp⟩

/-- C7: with pairwise distinct codes, the one response the handler renders has
the `Success` code exactly when binding succeeded and the lookup returned a nil
error, the `ErrParameterInvalidNo` code exactly when binding failed, and the
`ErrGetWithdrawRootByBatchIndexFailure` code exactly when binding succeeded and
the lookup returned a non-nil error; its payload is non-nil only with the
`Success` code. -/
theorem three_way_code_split (codes : ResponseCodes)
    (ShouldBind : C → QueryByBatchIndexRequest ι χ × Option ε)
    (lookup : L → C → ι → ρ × Option ε) (ctx : C) (w : World L C ι ε ρ)
    (h1 : codes.Success ≠ codes.ErrParameterInvalidNo)
    (h2 : codes.Success ≠ codes.ErrGetWithdrawRootByBatchIndexFailure)
    (h3 : codes.ErrParameterInvalidNo ≠ codes.ErrGetWithdrawRootByBatchIndexFailure) :
    ∃ r : Rendered ε ρ,
      emitted w (GetWithdrawRootByBatchIndex codes ShouldBind lookup ctx w) = [r] ∧
      (r.errCode = codes.Success ↔
        (ShouldBind ctx).2 = none ∧
        (lookup w.controller.batchLogic ctx (ShouldBind ctx).1.BatchIndex).2 = none) ∧
      (r.errCode = codes.ErrParameterInvalidNo ↔ (ShouldBind ctx).2 ≠ none) ∧
      (r.errCode = codes.ErrGetWithdrawRootByBatchIndexFailure ↔
        (ShouldBind ctx).2 = none ∧
        (lookup w.controller.batchLogic ctx (ShouldBind ctx).1.BatchIndex).2 ≠ none) ∧
      (r.data ≠ none → r.errCode = codes.Success) := by
  rcases hb : ShouldBind ctx with ⟨req, _ | e⟩
  · rcases hl : lookup w.controller.batchLogic ctx req.BatchIndex with ⟨result, _ | e⟩
    · refine ⟨Rendered.mk codes.Success none (some result), ?_, ?_⟩
      · rw [run_success codes ShouldBind lookup ctx w req result hb hl, emitted_mk]
      · simp [hl, h1, h2]
    · refine ⟨Rendered.mk codes.ErrGetWithdrawRootByBatchIndexFailure (some e) none, ?_, ?_⟩
      · rw [run_lookup_failure codes ShouldBind lookup ctx w req result e hb hl, emitted_mk]
      · simp [hl, h2.symm, h3.symm]
  · refine ⟨Rendered.mk codes.ErrParameterInvalidNo (some e) none, ?_, ?_⟩
    · rw [run_bind_failure codes ShouldBind lookup ctx w req e hb, emitted_mk]
    · simp [h1.symm, h3]

/-- C7 at the sample codes, for a request for batch 100 of an unreachable
store. -/
theorem three_way_code_split_witness :
    sampleCodes.Success ≠ sampleCodes.ErrParameterInvalidNo ∧
    sampleCodes.Success ≠ sampleCodes.ErrGetWithdrawRootByBatchIndexFailure ∧
    sampleCodes.ErrParameterInvalidNo ≠ sampleCodes.ErrGetWithdrawRootByBatchIndexFailure ∧
    ∃ r : Rendered String Nat,
      emitted freshWorld
        (GetWithdrawRootByBatchIndex sampleCodes bindIndex storeDown 100 freshWorld) = [r] ∧
      (r.errCode = sampleCodes.Success ↔
        (bindIndex 100).2 = none ∧
        (storeDown freshWorld.controller.batchLogic 100 (bindIndex 100).1.BatchIndex).2 =
          none) ∧
      (r.errCode = sampleCodes.ErrParameterInvalidNo ↔ (bindIndex 100).2 ≠ none) ∧
      (r.errCode = sampleCodes.ErrGetWithdrawRootByBatchIndexFailure ↔
        (bindIndex 100).2 = none ∧
        (storeDown freshWorld.controller.batchLogic 100 (bindIndex 100).1.BatchIndex).2 ≠
          none) ∧
      (r.data ≠ none → r.errCode = sampleCodes.Success) :=
  ⟨by decide, by decide, by decide,
   three_way_code_split sampleCodes bindIndex storeDown 100 freshWorld
     (by decide) (by decide) (by decide)⟩

/-- C8: on every path exactly one response is rendered: the responses rendered
after the call are those rendered before it followed by one more. -/
theorem exactly_one_response (codes : ResponseCodes)
    (ShouldBind : C → QueryByBatchIndexRequest ι χ × Option ε)
    (lookup : L → C → ι → ρ × Option ε) (ctx : C) (w : World L C ι ε ρ) :
    (∃ r : Rendered ε ρ,
      (GetWithdrawRootByBatchIndex codes ShouldBind lookup ctx w).rendered =
        w.rendered ++ [r]) ∧
    (emitted w (GetWithdrawRootByBatchIndex codes ShouldBind lookup ctx w)).length = 1 := by
  rcases hb : ShouldBind ctx with ⟨req, _ | e⟩
  · rcases hl : lookup w.controller.batchLogic ctx req.BatchIndex with ⟨result, _ | e⟩
    · rw [run_success codes ShouldBind lookup ctx w req result hb hl, emitted_mk]
      exact ⟨⟨_, rfl⟩, rfl⟩
    · rw [run_lookup_failure codes ShouldBind lookup ctx w req result e hb hl, emitted_mk]
      exact ⟨⟨_, rfl⟩, rfl⟩
  · rw [run_bind_failure codes ShouldBind lookup ctx w req e hb, emitted_mk]
    exact ⟨⟨_, rfl⟩, rfl⟩

/-- C9: when binding succeeds with request `req`, the handler invokes the
lookup exactly once, on the controller's `batchLogic`, with the index
`req.BatchIndex` unchanged, and the response it renders is built from what the
lookup returns for that index. -/
theorem index_passed_unchanged (codes : ResponseCodes)
    (ShouldBind : C → QueryByBatchIndexRequest ι χ × Option ε)
    (lookup : L → C → ι → ρ × Option ε) (ctx : C) (w : World L C ι ε ρ)
    (req : QueryByBatchIndexRequest ι χ)
    (hbind : ShouldBind ctx = (req, none)) :
    invoked w (GetWithdrawRootByBatchIndex codes ShouldBind lookup ctx w) =
      [LookupCall.mk w.controller.batchLogic ctx req.BatchIndex] ∧
    (GetWithdrawRootByBatchIndex codes ShouldBind lookup ctx w).lookups =
      w.lookups ++ [LookupCall.mk w.controller.batchLogic ctx req.BatchIndex] ∧
    emitted w (GetWithdrawRootByBatchIndex codes ShouldBind lookup ctx w) =
      [match lookup w.controller.batchLogic ctx req.BatchIndex with
       | (_, some e) =>
         Rendered.mk codes.ErrGetWithdrawRootByBatchIndexFailure (some e) none
       | (result, none) => Rendered.mk codes.Success none (some result)] := by
  rcases hl : lookup w.controller.batchLogic ctx req.BatchIndex with ⟨result, _ | e⟩
  · rw [run_success codes ShouldBind lookup ctx w req result hbind hl, emitted_mk,
      invoked_mk]
    exact ⟨rfl, rfl, rfl⟩
  · rw [run_lookup_failure codes ShouldBind lookup ctx w req result e hbind hl,
      emitted_mk, invoked_mk]
    exact ⟨rfl, rfl, rfl⟩

/-- C9 at a request for batch 100: the store is asked for index 100 and the
root of batch 100 is rendered. -/
theorem index_passed_unchanged_witness :
    bindIndex 100 = (QueryByBatchIndexRequest.mk 100 (), none) ∧
    (invoked freshWorld
        (GetWithdrawRootByBatchIndex sampleCodes bindIndex storeWithBatch100 100 freshWorld) =
      [LookupCall.mk 1 100 100] ∧
     (GetWithdrawRootByBatchIndex sampleCodes bindIndex storeWithBatch100 100
        freshWorld).lookups = [] ++ [LookupCall.mk 1 100 100] ∧
     emitted freshWorld
        (GetWithdrawRootByBatchIndex sampleCodes bindIndex storeWithBatch100 100 freshWorld) =
      [Rendered.mk 0 none (some 0xabc)]) :=
  ⟨rfl,
   index_passed_unchanged sampleCodes bindIndex storeWithBatch100 100 freshWorld
     (QueryByBatchIndexRequest.mk 100 ()) rfl⟩

end Controller
